import Mathlib

/-
Verification of the asynchronous job-queue subsystem of the prosto repository,
shallowly embedded from src/modules/queue (rabbitmq.provider.ts,
queue.service.ts, interfaces/queue.interface.ts).
-/

namespace Prosto

/-- IJobOptions (interfaces/queue.interface.ts): all fields optional.
Numeric fields are modelled as Nat since the code only writes non-negative
millisecond/count values. -/
structure IJobOptions where
  delay : Option Nat := none
  maxRetries : Option Nat := none
  retryDelay : Option Nat := none
  priority : Option Nat := none
  timeout : Option Nat := none
  removeOnComplete : Option Bool := none
  removeOnFail : Option Bool := none
deriving DecidableEq

/-- IJobData (interfaces/queue.interface.ts): the job envelope placed on the
broker.  `data` is kept as an opaque serialized string, `createdAt` as a
millisecond timestamp. -/
structure IJobData where
  id : String
  type : String
  data : String
  options : Option IJobOptions := none
  createdAt : Nat := 0
  attempts : Nat := 0
deriving DecidableEq

/-- JavaScript `x || d` on an optional numeric field: `undefined` and `0` are
falsy and yield the default, any other number is returned as is.  Used for
`options?.maxRetries || 3` (rabbitmq.provider.ts:157) and for reading the
`x-max-retries` / `x-retry-delay` headers back (lines 222-223). -/
def jsOr (x : Option Nat) (d : Nat) : Nat :=
  match x with
  | none => d
  | some n => if n = 0 then d else n

/-- Wire body of a broker message, as seen by `JSON.parse(msg.content.toString())`:
either a body that parses to a job envelope, or one on which `JSON.parse`
throws. -/
inductive Content where
  | job (j : IJobData)
  | malformed (raw : String)
deriving DecidableEq

/-- Result of `JSON.parse(msg.content.toString())`: the decoded envelope, or
`none` when the parse throws.  Parsing is deterministic: both parse sites in
the consume callback (rabbitmq.provider.ts:211 and 221) see the same result
for the same content. -/
def decodeContent : Content → Option IJobData
  | .job j => some j
  | .malformed _ => none

/-- The message headers the producer writes and the consumer reads
(`x-max-retries`, `x-retry-delay`). -/
structure Headers where
  xMaxRetries : Option Nat := none
  xRetryDelay : Option Nat := none
deriving DecidableEq

/-- A broker message as delivered to the consume callback. -/
structure Message where
  content : Content
  headers : Headers := {}
  messageId : String := ""
  persistent : Bool := true
deriving DecidableEq

/-- Resolution of one delivery by the consume callback
(rabbitmq.provider.ts:204-238): positive ack, negative ack with requeue
(issued `delayMs` later via setTimeout), negative ack without requeue (broker
routes to the dead-letter queue), or the callback itself throwing, in which
case neither ack nor nack is ever issued for the message. -/
inductive Outcome where
  | ack
  | nackRequeue (delayMs : Nat)
  | nackDead
  | callbackThrow
deriving DecidableEq

/-- Whether an outcome contains an ack-or-nack decision for the message. -/
def Outcome.decisionMade : Outcome → Bool
  | .ack => true
  | .nackRequeue _ => true
  | .nackDead => true
  | .callbackThrow => false

/-- The per-message algorithm of the consume callback registered by
`registerProcessor` (rabbitmq.provider.ts:204-238), for one delivery.
The handler is a function returning `true` when its promise resolves and
`false` when it throws/rejects.  Faithful details: the `try` block parses the
body, increments `attempts` on the parsed object only, and invokes the
handler; on handler failure the `catch` block parses the body AGAIN into a
fresh object (line 221) — discarding the increment — and compares that fresh
object's `attempts` against `x-max-retries` (default 3).  If the body cannot
be parsed, the `try` parse throws, and the `catch` parse throws again, so the
callback throws without acking or nacking. -/
def handleMessage (handler : IJobData → Bool) (msg : Message) : Outcome :=
  match decodeContent msg.content with
  | none => .callbackThrow
  | some parsed =>
    let job := { parsed with attempts := parsed.attempts + 1 }
    if handler job then .ack
    else
      match decodeContent msg.content with
      | none => .callbackThrow
      | some job2 =>
        let maxRetries := jsOr msg.headers.xMaxRetries 3
        let retryDelay := jsOr msg.headers.xRetryDelay 5000
        if job2.attempts < maxRetries then .nackRequeue retryDelay
        else .nackDead

/-- The envelope the handler is invoked with on a delivery of `msg` (the
parsed body with `attempts` incremented), or `none` when the body does not
parse and the handler is never invoked. -/
def handlerInput (msg : Message) : Option IJobData :=
  (decodeContent msg.content).map (fun p => { p with attempts := p.attempts + 1 })

/-- Broker redelivery (RabbitMQ semantics of `nack(msg, false, true)`):
a negative acknowledgement with requeue puts the SAME message, body
unchanged, back on the queue for redelivery; any other outcome removes the
message from the main queue (ack, dead-letter) or leaves it parked
unacknowledged (callback throw), so no further delivery happens. -/
def redeliver (msg : Message) : Outcome → Option Message
  | .nackRequeue _ => some msg
  | _ => none

/-- The message observed by the n-th delivery attempt (0-based) of `msg` to
the consume callback, when that delivery happens. -/
def deliveries (handler : IJobData → Bool) (msg : Message) : Nat → Option Message
  | 0 => some msg
  | n + 1 =>
    match deliveries handler msg n with
    | none => none
    | some m => redeliver m (handleMessage handler m)

/-- Outcome of the n-th delivery attempt, when that delivery happens. -/
def deliveryOutcome (handler : IJobData → Bool) (msg : Message) (n : Nat) :
    Option Outcome :=
  (deliveries handler msg n).map (handleMessage handler)

/-- Whether the registered handler is invoked on the n-th delivery attempt. -/
def invokedAt (handler : IJobData → Bool) (msg : Message) (n : Nat) : Bool :=
  match deliveries handler msg n with
  | some m => (handlerInput m).isSome
  | none => false

/-- The `attempts` counter decoded out of the message body on the n-th
delivery attempt. -/
def decodedAttempts (handler : IJobData → Bool) (msg : Message) (n : Nat) :
    Option Nat :=
  (deliveries handler msg n).bind (fun m => (decodeContent m.content).map IJobData.attempts)

/-- The `attempts` value observed by the handler on the n-th delivery
attempt. -/
def observedAttempts (handler : IJobData → Bool) (msg : Message) (n : Nat) :
    Option Nat :=
  (deliveries handler msg n).bind (fun m => (handlerInput m).map IJobData.attempts)

/-! ## Topology (queue names, assertQueue, ensureQueue)

`qp` is the configured queue name prefix (`this.queuePrefix`,
rabbitmq.provider.ts:17,25). -/

/-- Full queue name with prefix (`getQueueName`, rabbitmq.provider.ts:90-92). -/
def getQueueName (qp name : String) : String :=
  qp ++ "." ++ name

/-- Dead letter queue name (`getDeadLetterQueueName`,
rabbitmq.provider.ts:97-99). -/
def getDeadLetterQueueName (qp name : String) : String :=
  getQueueName qp name ++ ".dlq"

/-- The optional arguments passed to `channel.assertQueue`: the Lean fields
xDeadLetterExchange, xDeadLetterRoutingKey, xMessageTtl stand for the AMQP
arguments named x-dead-letter-exchange, x-dead-letter-routing-key and
x-message-ttl. -/
structure QueueArgs where
  xDeadLetterExchange : Option String := none
  xDeadLetterRoutingKey : Option String := none
  xMessageTtl : Option Nat := none
deriving DecidableEq

/-- Configuration a queue is asserted with. -/
structure QueueConfig where
  durable : Bool := true
  args : QueueArgs := {}
deriving DecidableEq

/-- One `channel.assertQueue(queue, options)` call, as an observable
operation. -/
structure AssertQueueOp where
  queue : String
  config : QueueConfig
deriving DecidableEq

/-- RabbitMQ dead-letter routing for a message nacked without requeue on a
queue asserted with `args`: with dead-letter exchange set to the empty string
(the default exchange) the message is routed to the queue named by the
dead-letter routing key. -/
def deadLetterTarget (args : QueueArgs) : Option String :=
  match args.xDeadLetterExchange, args.xDeadLetterRoutingKey with
  | some "", some rk => some rk
  | _, _ => none

/-- Broker-side topology state: the declared queues with their
configurations, plus the chronological log of assertQueue operations
performed (oldest first). -/
structure BrokerState where
  queues : List (String × QueueConfig) := []
  log : List AssertQueueOp := []
deriving DecidableEq

/-- Errors surfaced by the provider: `brokerUnavailable` models the
`Error('RabbitMQ channel not available')` throw; `preconditionFailed` models
the broker refusing `assertQueue` on an existing queue with different
arguments. -/
inductive QErr where
  | brokerUnavailable
  | preconditionFailed
deriving DecidableEq

/-- RabbitMQ `assertQueue` semantics (create if absent): declare the queue if
it does not exist; if it exists with the same configuration, succeed without
change; if it exists with a different configuration, fail.  The operation is
recorded in the log either way it succeeds. -/
def assertQueue (b : BrokerState) (q : String) (cfg : QueueConfig) :
    Except QErr BrokerState :=
  match b.queues.lookup q with
  | none =>
    .ok { queues := (q, cfg) :: b.queues, log := b.log ++ [⟨q, cfg⟩] }
  | some c =>
    if c = cfg then .ok { b with log := b.log ++ [⟨q, cfg⟩] }
    else .error .preconditionFailed

/-- Configuration of the dead-letter queue asserted by `ensureQueue`
(rabbitmq.provider.ts:113-115): durable, no special arguments. -/
def dlqConfig : QueueConfig :=
  { durable := true, args := {} }

/-- Configuration of the main queue asserted by `ensureQueue`
(rabbitmq.provider.ts:118-124): durable, dead-letter exchange set to the
empty string and dead-letter routing key set to the dead-letter queue's
name. -/
def mainConfig (qp name : String) : QueueConfig :=
  { durable := true,
    args := { xDeadLetterExchange := some "",
              xDeadLetterRoutingKey := some (getDeadLetterQueueName qp name) } }

/-- Broker-side effect of `ensureQueue(name)` (rabbitmq.provider.ts:104-125):
assert the dead-letter queue first, then the main queue with dead-letter
arguments pointing at it. -/
def ensureQueueB (qp name : String) (b : BrokerState) : Except QErr BrokerState := do
  let b1 ← assertQueue b (getDeadLetterQueueName qp name) dlqConfig
  assertQueue b1 (getQueueName qp name) (mainConfig qp name)

/-- `ensureQueue(name)` called n times in sequence. -/
def ensureQueueN (qp name : String) : Nat → BrokerState → Except QErr BrokerState
  | 0, b => .ok b
  | n + 1, b => do
    let b1 ← ensureQueueB qp name b
    ensureQueueN qp name n b1

/-! ## Provider state and operations -/

/-- State of the RabbitMQProvider instance together with the broker it talks
to.  `connection` and `channel` are the instance fields of the same names
(null or a handle id); `openConnections`/`openChannels` track which handles
are still open broker side; `published` collects `sendToQueue` calls (newest
first) as (queue, message) pairs; `processors` is the processors map (full
queue name to a handler id). -/
structure ProviderState where
  connection : Option Nat := none
  channel : Option Nat := none
  openConnections : List Nat := []
  openChannels : List Nat := []
  broker : BrokerState := {}
  published : List (String × Message) := []
  processors : List (String × Nat) := []
deriving DecidableEq

/-- `isConnected()` (rabbitmq.provider.ts:271-273): true iff both the stored
connection and the stored channel are non-null. -/
def isConnected (s : ProviderState) : Bool :=
  s.connection.isSome && s.channel.isSome

/-- `QueueService.isHealthy()` (queue.service.ts:123-125): delegates to
`rabbitMQ.isConnected()`. -/
def isHealthy (s : ProviderState) : Bool :=
  isConnected s

/-- `disconnect()` (rabbitmq.provider.ts:73-85): closes the channel if the
field is non-null, then the connection if the field is non-null; the
`connection` and `channel` fields themselves are never reset to null. -/
def disconnect (s : ProviderState) : ProviderState :=
  let s1 :=
    match s.channel with
    | some h => { s with openChannels := s.openChannels.erase h }
    | none => s
  match s1.connection with
  | some h => { s1 with openConnections := s1.openConnections.erase h }
  | none => s1

/-- Effect of a successful `connect()` (rabbitmq.provider.ts:40-44): a new
transport connection and channel are opened and stored in the fields. -/
def connectOk (connId chanId : Nat) (s : ProviderState) : ProviderState :=
  { s with connection := some connId,
           channel := some chanId,
           openConnections := connId :: s.openConnections,
           openChannels := chanId :: s.openChannels }

/-- `ensureQueue(name)` at the provider level (rabbitmq.provider.ts:104-125):
fails with the channel-not-available error when the channel field is null,
otherwise asserts the topology on the broker. -/
def ensureQueueP (qp name : String) (s : ProviderState) :
    Except QErr ProviderState :=
  if s.channel = none then .error .brokerUnavailable
  else do
    let b ← ensureQueueB qp name s.broker
    .ok { s with broker := b }

/-- The job envelope built by `addJob` (rabbitmq.provider.ts:142-150):
fresh id, attempts 0. -/
def mkJob (jid ty da : String) (options : Option IJobOptions) (now : Nat) :
    IJobData :=
  { id := jid, type := ty, data := da, options := options,
    createdAt := now, attempts := 0 }

/-- The message headers written by `addJob` (rabbitmq.provider.ts:156-159):
x-max-retries is `options?.maxRetries || 3`, x-retry-delay is
`options?.retryDelay || 5000`. -/
def mkHeaders (options : Option IJobOptions) : Headers :=
  { xMaxRetries := some (jsOr (options.bind IJobOptions.maxRetries) 3),
    xRetryDelay := some (jsOr (options.bind IJobOptions.retryDelay) 5000) }

/-- The full message published by `addJob` (rabbitmq.provider.ts:152-160):
serialized envelope, persistent, message id = job id. -/
def mkMessage (jid ty da : String) (options : Option IJobOptions) (now : Nat) :
    Message :=
  { content := .job (mkJob jid ty da options now),
    headers := mkHeaders options,
    messageId := jid,
    persistent := true }

/-- `options?.delay` as read by `addJob` (rabbitmq.provider.ts:163). -/
def optDelay (options : Option IJobOptions) : Option Nat :=
  options.bind IJobOptions.delay

/-- Name of the delay queue for delay value d
(rabbitmq.provider.ts:164). -/
def delayQueueName (qp queueName : String) (d : Nat) : String :=
  getQueueName qp queueName ++ ".delay." ++ toString d

/-- Configuration of the delay queue (rabbitmq.provider.ts:166-173): durable,
x-message-ttl = d, dead-letter arguments routing expired messages back to the
main queue. -/
def delayConfig (qp queueName : String) (d : Nat) : QueueConfig :=
  { durable := true,
    args := { xMessageTtl := some d,
              xDeadLetterExchange := some "",
              xDeadLetterRoutingKey := some (getQueueName qp queueName) } }

/-- `addJob(queueName, type, data, options)` (rabbitmq.provider.ts:130-186).
Fails with the channel-not-available error when the channel field is null
(before any effect); otherwise ensures the queue topology, builds the
envelope, and publishes it: to the on-demand-asserted delay queue when
`options?.delay && options.delay > 0`, else directly to the main queue.
Returns the job id.  `jid` stands for the generated uuid and `now` for the
current time, both inputs of the embedding. -/
def addJob (qp queueName ty da : String) (options : Option IJobOptions)
    (jid : String) (now : Nat) (s : ProviderState) :
    Except QErr (ProviderState × String) :=
  if s.channel = none then .error .brokerUnavailable
  else do
    let b1 ← ensureQueueB qp queueName s.broker
    match optDelay options with
    | some d =>
      if 0 < d then do
        let b2 ← assertQueue b1 (delayQueueName qp queueName d)
          (delayConfig qp queueName d)
        .ok ({ s with
               broker := b2,
               published := (delayQueueName qp queueName d,
                 mkMessage jid ty da options now) :: s.published },
             jid)
      else
        .ok ({ s with
               broker := b1,
               published := (getQueueName qp queueName,
                 mkMessage jid ty da options now) :: s.published },
             jid)
    | none =>
      .ok ({ s with
             broker := b1,
             published := (getQueueName qp queueName,
               mkMessage jid ty da options now) :: s.published },
           jid)

/-- `registerProcessor(queueName, processor)` (rabbitmq.provider.ts:191-241).
Fails with the channel-not-available error when the channel field is null
(before any effect); otherwise ensures the topology and stores the processor
under the full queue name.  `pid` is an identifier standing for the handler
function. -/
def registerProcessor (qp queueName : String) (pid : Nat) (s : ProviderState) :
    Except QErr ProviderState :=
  if s.channel = none then .error .brokerUnavailable
  else do
    let b1 ← ensureQueueB qp queueName s.broker
    .ok { s with
          broker := b1,
          processors := (getQueueName qp queueName, pid) :: s.processors }

/-! ## Connection lifecycle (connect / close / reconnect timer) -/

/-- Abstract connection lifecycle state for the reconnect behavior of
`connect`/`reconnect` (rabbitmq.provider.ts:31-68).  `pendingReconnectMs`
records a scheduled `setTimeout(() => this.connect(), ms)`; `attempts` counts
the `connect()` invocations performed so far. -/
structure ConnLifecycle where
  connected : Bool := false
  pendingReconnectMs : Option Nat := none
  attempts : Nat := 0
deriving DecidableEq

/-- One `connect()` invocation (rabbitmq.provider.ts:31-60).  `urlPresent`
says whether a broker url is configured; `ok` whether `amqp.connect`
succeeds.  With no url the method logs and returns; on success the transport
is up (and a close handler is installed); on failure the catch block only
logs the error — in particular it schedules NO further reconnect attempt. -/
def connectAttempt (urlPresent ok : Bool) (s : ConnLifecycle) : ConnLifecycle :=
  if !urlPresent then { s with attempts := s.attempts + 1 }
  else if ok then { s with connected := true, attempts := s.attempts + 1 }
  else { s with attempts := s.attempts + 1 }

/-- Broker-initiated close (rabbitmq.provider.ts:53-56, 65-68): the close
handler calls `reconnect()`, which schedules a single
`setTimeout(() => this.connect(), 5000)`. -/
def onClose (s : ConnLifecycle) : ConnLifecycle :=
  { s with connected := false, pendingReconnectMs := some 5000 }

/-- Firing of the scheduled reconnect timer, when one is pending: it runs
`connect()` once (with outcome `ok`) and the timer is consumed.  With no
pending timer nothing happens. -/
def fireTimer (urlPresent ok : Bool) (s : ConnLifecycle) : ConnLifecycle :=
  match s.pendingReconnectMs with
  | some _ => connectAttempt urlPresent ok { s with pendingReconnectMs := none }
  | none => s

/-- Run the lifecycle for n timer-firing opportunities; `env k` is the
outcome of `amqp.connect` on the attempt made when `attempts = k`. -/
def runConn (urlPresent : Bool) (env : Nat → Bool) : Nat → ConnLifecycle → ConnLifecycle
  | 0, s => s
  | n + 1, s => runConn urlPresent env n (fireTimer urlPresent (env s.attempts) s)

/-! ## Concrete instances used by witnesses -/

instance exceptDecEq {ε α : Type} [DecidableEq ε] [DecidableEq α] :
    DecidableEq (Except ε α) := fun x y =>
  match x, y with
  | .error a, .error b =>
    if h : a = b then isTrue (h ▸ rfl) else isFalse (fun hc => h (by injection hc))
  | .error _, .ok _ => isFalse (fun hc => by injection hc)
  | .ok _, .error _ => isFalse (fun hc => by injection hc)
  | .ok a, .ok b =>
    if h : a = b then isTrue (h ▸ rfl) else isFalse (fun hc => h (by injection hc))

/-- A handler whose promise rejects on every invocation. -/
def hFail : IJobData → Bool := fun _ => false

/-- Options of the scenario jobs: maxRetries 1, retryDelay 10. -/
def opts1 : IJobOptions := { maxRetries := some 1, retryDelay := some 10 }

/-- The envelope the producer builds for the scenario job. -/
def job1 : IJobData := mkJob "job-1" "send-email" "p" (some opts1) 0

/-- The message the producer publishes for the scenario job. -/
def msg1 : Message := mkMessage "job-1" "send-email" "p" (some opts1) 0

/-- A delivered message whose body cannot be decoded as a job envelope. -/
def badMsg : Message :=
  { content := .malformed "not-json",
    headers := { xMaxRetries := some 3, xRetryDelay := some 5000 } }

/-- The broker state produced by `ensureQueue` of queue q under the queue
name prefix e, starting from an empty broker. -/
def eqBroker : BrokerState :=
  { queues := [(getQueueName "e" "q", mainConfig "e" "q"),
               (getDeadLetterQueueName "e" "q", dlqConfig)],
    log := [⟨getDeadLetterQueueName "e" "q", dlqConfig⟩,
            ⟨getQueueName "e" "q", mainConfig "e" "q"⟩] }

/-! ## Helper lemmas -/

theorem jsOr_pos (x : Option Nat) (d : Nat) (hd : 0 < d) : 0 < jsOr x d := by
  cases x with
  | none => simpa [jsOr] using hd
  | some n =>
    by_cases h : n = 0 <;> simp [jsOr, h] <;> omega

theorem handleMessage_always_fail (h : IJobData → Bool) (m : Message) (j : IJobData)
    (hh : ∀ x, h x = false) (hc : m.content = .job j)
    (hlt : j.attempts < jsOr m.headers.xMaxRetries 3) :
    handleMessage h m = .nackRequeue (jsOr m.headers.xRetryDelay 5000) := by
  simp [handleMessage, hc, decodeContent, hh, hlt]

theorem deliveries_always_fail (h : IJobData → Bool) (m : Message) (j : IJobData)
    (hh : ∀ x, h x = false) (hc : m.content = .job j)
    (hlt : j.attempts < jsOr m.headers.xMaxRetries 3) :
    ∀ n, deliveries h m n = some m := by
  intro n
  induction n with
  | zero => rfl
  | succ k ih =>
    simp [deliveries, ih, handleMessage_always_fail h m j hh hc hlt, redeliver]

theorem except_bind_ok {ε α β : Type} (x : Except ε α) (f : α → Except ε β) (b : β)
    (h : (x >>= f) = .ok b) : ∃ a, x = .ok a ∧ f a = .ok b := by
  cases x with
  | error e => simp [Bind.bind, Except.bind] at h
  | ok a =>
    refine ⟨a, rfl, ?_⟩
    simpa [Bind.bind, Except.bind] using h

/-! ## Claim theorems -/

/-- Claim C1 (evaluation of the code at the failing input): for a registered
handler that throws on every invocation and any producer-enqueued message
(body attempts = 0), EVERY delivery attempt n happens, invokes the handler,
and resolves as nack-with-requeue; no delivery is ever resolved as
nack-without-requeue, so the job is never routed to the dead-letter queue and
the handler is invoked unboundedly often — contradicting the claimed bound
of maxRetries invocations.  The cause: the catch block re-parses the original
body, whose attempts field is 0 and is never incremented on the wire, and
0 is below every effective x-max-retries value. -/
theorem alwaysFailing_handler_retries_unboundedly
    (h : IJobData → Bool) (m : Message) (j : IJobData) (n : Nat)
    (hh : ∀ x, h x = false) (hc : m.content = .job j) (hj : j.attempts = 0) :
    deliveries h m n = some m ∧
    invokedAt h m n = true ∧
    deliveryOutcome h m n = some (.nackRequeue (jsOr m.headers.xRetryDelay 5000)) ∧
    deliveryOutcome h m n ≠ some .nackDead := by
  have hlt : j.attempts < jsOr m.headers.xMaxRetries 3 := by
    rw [hj]; exact jsOr_pos _ _ (by omega)
  have hdel := deliveries_always_fail h m j hh hc hlt n
  have hout := handleMessage_always_fail h m j hh hc hlt
  refine ⟨hdel, ?_, ?_, ?_⟩
  · simp [invokedAt, hdel, handlerInput, hc, decodeContent]
  · simp [deliveryOutcome, hdel, hout]
  · simp [deliveryOutcome, hdel, hout]

theorem alwaysFailing_handler_retries_unboundedly_witness :
    (∀ x, hFail x = false) ∧ msg1.content = .job job1 ∧ job1.attempts = 0 ∧
    (deliveries hFail msg1 4 = some msg1 ∧
     invokedAt hFail msg1 4 = true ∧
     deliveryOutcome hFail msg1 4 =
       some (.nackRequeue (jsOr msg1.headers.xRetryDelay 5000)) ∧
     deliveryOutcome hFail msg1 4 ≠ some .nackDead) :=
  ⟨fun _ => rfl, rfl, rfl,
   alwaysFailing_handler_retries_unboundedly hFail msg1 job1 4 (fun _ => rfl) rfl rfl⟩

/-- Claim C2 counterexample: for the scenario message (attempts 0 in the
body, always-throwing handler, so it is requeued after the handler failure),
the attempts counter decoded from the body on the redelivery equals 0, the
same value as on the first delivery — not the previous value plus the
increment done on that delivery (which would be 1). -/
theorem decoded_attempts_not_increasing_cx :
    decodedAttempts hFail msg1 0 = some 0 ∧
    decodedAttempts hFail msg1 1 = some 0 ∧
    decodedAttempts hFail msg1 1 ≠ (decodedAttempts hFail msg1 0).map (fun a => a + 1) := by
  decide

/-- Claim C2 amended: across redeliveries of a message whose handler always
fails, the attempts counter decoded from the body is CONSTANT, equal to the
originally enqueued value (0 for producer-built envelopes), and the attempts
value observed by the handler is the constant value attempts + 1: the
increment is local to each delivery and the requeued message carries the
original unmodified body. -/
theorem decoded_attempts_constant
    (h : IJobData → Bool) (m : Message) (j : IJobData) (n : Nat)
    (hh : ∀ x, h x = false) (hc : m.content = .job j)
    (hlt : j.attempts < jsOr m.headers.xMaxRetries 3) :
    decodedAttempts h m n = some j.attempts ∧
    observedAttempts h m n = some (j.attempts + 1) := by
  have hdel := deliveries_always_fail h m j hh hc hlt n
  constructor
  · simp [decodedAttempts, hdel, hc, decodeContent]
  · simp [observedAttempts, hdel, handlerInput, hc, decodeContent]

theorem decoded_attempts_constant_witness :
    (∀ x, hFail x = false) ∧ msg1.content = .job job1 ∧
    job1.attempts < jsOr msg1.headers.xMaxRetries 3 ∧
    (decodedAttempts hFail msg1 2 = some job1.attempts ∧
     observedAttempts hFail msg1 2 = some (job1.attempts + 1)) :=
  ⟨fun _ => rfl, rfl, by decide,
   decoded_attempts_constant hFail msg1 job1 2 (fun _ => rfl) rfl (by decide)⟩

/-- Claim C3 counterexample: a delivered message whose body cannot be decoded
is NOT resolved through the generic retry path: the delivery resolves as a
callback throw — it is neither nacked with requeue (no retry) nor nacked
without requeue (no dead-lettering), no ack/nack decision is made at all, and
no redelivery follows. -/
theorem malformed_body_no_decision_cx :
    handleMessage hFail badMsg = .callbackThrow ∧
    (handleMessage hFail badMsg).decisionMade = false ∧
    handleMessage hFail badMsg ≠ .nackRequeue 5000 ∧
    handleMessage hFail badMsg ≠ .nackDead ∧
    deliveries hFail badMsg 1 = none := by
  decide

/-- Claim C3 amended: for every delivered message whose body cannot be
decoded as a job envelope, the first JSON.parse throws and the catch block's
second JSON.parse throws again, so the consume callback itself throws: the
message receives neither an ack nor a nack decision (it is left
unacknowledged), is not retried, and is never routed to the dead-letter
queue. -/
theorem malformed_body_callback_throws (h : IJobData → Bool) (m : Message)
    (hm : decodeContent m.content = none) :
    handleMessage h m = .callbackThrow ∧
    (handleMessage h m).decisionMade = false ∧
    deliveries h m 1 = none := by
  refine ⟨?_, ?_, ?_⟩ <;>
    simp [handleMessage, hm, deliveries, redeliver, Outcome.decisionMade]

theorem malformed_body_callback_throws_witness :
    decodeContent badMsg.content = none ∧
    (handleMessage hFail badMsg = .callbackThrow ∧
     (handleMessage hFail badMsg).decisionMade = false ∧
     deliveries hFail badMsg 1 = none) :=
  ⟨rfl, malformed_body_callback_throws hFail badMsg rfl⟩

theorem assertQueue_cases (b : BrokerState) (q : String) (cfg : QueueConfig)
    (b1 : BrokerState) (hok : assertQueue b q cfg = .ok b1) :
    b1.log = b.log ++ [⟨q, cfg⟩] ∧
    (b1.queues = b.queues ∨ b1.queues = (q, cfg) :: b.queues) ∧
    b1.queues.lookup q = some cfg := by
  unfold assertQueue at hok
  split at hok
  next hl =>
    injection hok with h
    subst h
    refine ⟨rfl, Or.inr rfl, ?_⟩
    simp [List.lookup]
  next c hl =>
    split at hok
    next hc =>
      injection hok with h
      subst h
      subst hc
      exact ⟨rfl, Or.inl rfl, hl⟩
    next hc => exact Except.noConfusion hok

theorem lookup_cons_ne {β : Type} (l : List (String × β)) (k q : String) (v : β)
    (h : q ≠ k) : ((k, v) :: l).lookup q = l.lookup q := by
  have hb : (q == k) = false := beq_eq_false_iff_ne.mpr h
  simp [List.lookup, hb]

theorem dlq_name_ne_main (qp name : String) :
    getDeadLetterQueueName qp name ≠ getQueueName qp name := by
  intro h
  have hlen := congrArg String.length h
  have h4 : (".dlq" : String).length = 4 := rfl
  rw [getDeadLetterQueueName, String.length_append, h4] at hlen
  omega

theorem ensureQueueB_parts (qp name : String) (b b1 : BrokerState)
    (hok : ensureQueueB qp name b = .ok b1) :
    ∃ bd, assertQueue b (getDeadLetterQueueName qp name) dlqConfig = .ok bd ∧
      assertQueue bd (getQueueName qp name) (mainConfig qp name) = .ok b1 := by
  exact except_bind_ok _ _ _ hok

/-- Claim C5: `ensureQueue(name)` performs exactly two queue assertions, in
order: first the dead-letter queue (the main queue's full name suffixed
.dlq), durable with no special arguments; then the main queue, durable with
x-dead-letter-exchange set to the empty string and x-dead-letter-routing-key
set to the dead-letter queue's name — so the broker's dead-letter routing for
a nack without requeue on the main queue targets exactly the asserted
dead-letter queue. -/
theorem ensureQueue_asserts_dlq_then_main (qp name : String) (b b1 : BrokerState)
    (hok : ensureQueueB qp name b = .ok b1) :
    b1.log = b.log ++
      [⟨getDeadLetterQueueName qp name, dlqConfig⟩,
       ⟨getQueueName qp name, mainConfig qp name⟩] ∧
    dlqConfig = { durable := true, args := {} } ∧
    (mainConfig qp name).durable = true ∧
    deadLetterTarget (mainConfig qp name).args =
      some (getDeadLetterQueueName qp name) ∧
    getDeadLetterQueueName qp name = getQueueName qp name ++ ".dlq" := by
  obtain ⟨bd, h1, h2⟩ := ensureQueueB_parts qp name b b1 hok
  obtain ⟨hl1, _, _⟩ := assertQueue_cases _ _ _ _ h1
  obtain ⟨hl2, _, _⟩ := assertQueue_cases _ _ _ _ h2
  refine ⟨?_, rfl, rfl, rfl, rfl⟩
  rw [hl2, hl1, List.append_assoc]
  rfl

theorem ensureQueue_asserts_dlq_then_main_witness :
    ensureQueueB "e" "q" {} = .ok eqBroker ∧
    (eqBroker.log = BrokerState.log {} ++
      [⟨getDeadLetterQueueName "e" "q", dlqConfig⟩,
       ⟨getQueueName "e" "q", mainConfig "e" "q"⟩] ∧
     dlqConfig = { durable := true, args := {} } ∧
     (mainConfig "e" "q").durable = true ∧
     deadLetterTarget (mainConfig "e" "q").args =
       some (getDeadLetterQueueName "e" "q") ∧
     getDeadLetterQueueName "e" "q" = getQueueName "e" "q" ++ ".dlq") :=
  ⟨rfl, ensureQueue_asserts_dlq_then_main "e" "q" {} eqBroker rfl⟩

theorem ensureQueueB_stable (qp name : String) (b : BrokerState)
    (hd : b.queues.lookup (getDeadLetterQueueName qp name) = some dlqConfig)
    (hm : b.queues.lookup (getQueueName qp name) = some (mainConfig qp name)) :
    ∃ b1, ensureQueueB qp name b = .ok b1 ∧ b1.queues = b.queues := by
  unfold ensureQueueB assertQueue
  simp [hd, hm, Bind.bind, Except.bind]

theorem ensureQueueB_post (qp name : String) (b b1 : BrokerState)
    (hok : ensureQueueB qp name b = .ok b1) :
    b1.queues.lookup (getDeadLetterQueueName qp name) = some dlqConfig ∧
    b1.queues.lookup (getQueueName qp name) = some (mainConfig qp name) := by
  obtain ⟨bd, h1, h2⟩ := ensureQueueB_parts qp name b b1 hok
  obtain ⟨_, _, hl1⟩ := assertQueue_cases _ _ _ _ h1
  obtain ⟨_, hq2, hl2⟩ := assertQueue_cases _ _ _ _ h2
  refine ⟨?_, hl2⟩
  cases hq2 with
  | inl he => rw [he]; exact hl1
  | inr he =>
    rw [he, lookup_cons_ne _ _ _ _ (dlq_name_ne_main qp name)]
    exact hl1

theorem ensureQueueN_stable (qp name : String) (n : Nat) :
    ∀ b : BrokerState,
      b.queues.lookup (getDeadLetterQueueName qp name) = some dlqConfig →
      b.queues.lookup (getQueueName qp name) = some (mainConfig qp name) →
      ∃ bn, ensureQueueN qp name n b = .ok bn ∧ bn.queues = b.queues := by
  induction n with
  | zero => intro b _ _; exact ⟨b, rfl, rfl⟩
  | succ k ih =>
    intro b hd hm
    obtain ⟨b1, hok, hq⟩ := ensureQueueB_stable qp name b hd hm
    obtain ⟨bn, hn, hqn⟩ := ih b1 (by rw [hq]; exact hd) (by rw [hq]; exact hm)
    refine ⟨bn, ?_, by rw [hqn, hq]⟩
    simp [ensureQueueN, hok, Bind.bind, Except.bind, hn]

/-- Claim C6: `ensureQueue` is idempotent: if one call succeeds, calling it
n times (n at least 1) for the same name also succeeds — no error on
repeat — and leaves the broker with exactly the same declared queues as the
single call: no duplicate queues are created. -/
theorem ensureQueue_idempotent (qp name : String) (b b1 : BrokerState) (n : Nat)
    (hok : ensureQueueB qp name b = .ok b1) (hn : 1 ≤ n) :
    ∃ bn, ensureQueueN qp name n b = .ok bn ∧ bn.queues = b1.queues := by
  obtain ⟨m, rfl⟩ : ∃ m, n = m + 1 := ⟨n - 1, by omega⟩
  obtain ⟨hd, hm⟩ := ensureQueueB_post qp name b b1 hok
  obtain ⟨bn, hrun, hq⟩ := ensureQueueN_stable qp name m b1 hd hm
  refine ⟨bn, ?_, hq⟩
  simp [ensureQueueN, hok, Bind.bind, Except.bind, hrun]

theorem ensureQueue_idempotent_witness :
    ensureQueueB "e" "q" {} = .ok eqBroker ∧ 1 ≤ 3 ∧
    ∃ bn, ensureQueueN "e" "q" 3 {} = .ok bn ∧ bn.queues = eqBroker.queues :=
  ⟨rfl, by omega, ensureQueue_idempotent "e" "q" {} eqBroker 3 rfl (by omega)⟩

/-- Claim C7: on a successful `addJob`, if a delay option d greater than 0 is
given, the serialized envelope is published to the delay queue named
main.delay.d (one name per distinct delay value), and that queue is declared
durable with x-message-ttl equal to d and dead-letter arguments routing
expired messages back to the main queue; if the delay option is absent or 0,
the envelope is published directly to the main queue. -/
theorem addJob_delay_routing (qp qn ty da : String) (options : Option IJobOptions)
    (jid : String) (now : Nat) (s : ProviderState) (r : ProviderState × String)
    (d : Nat) (hok : addJob qp qn ty da options jid now s = .ok r) :
    (optDelay options = some d → 0 < d →
      r.1.published =
        (delayQueueName qp qn d, mkMessage jid ty da options now) :: s.published ∧
      r.1.broker.queues.lookup (delayQueueName qp qn d) =
        some (delayConfig qp qn d) ∧
      (delayConfig qp qn d).args.xMessageTtl = some d ∧
      deadLetterTarget (delayConfig qp qn d).args = some (getQueueName qp qn)) ∧
    (optDelay options = none →
      r.1.published =
        (getQueueName qp qn, mkMessage jid ty da options now) :: s.published) ∧
    (optDelay options = some 0 →
      r.1.published =
        (getQueueName qp qn, mkMessage jid ty da options now) :: s.published) := by
  by_cases hch : s.channel = none
  · simp [addJob, hch] at hok
  · rw [addJob, if_neg hch] at hok
    obtain ⟨b1, hb1, hok2⟩ := except_bind_ok _ _ _ hok
    split at hok2
    next e heq =>
      split at hok2
      next h0 =>
        obtain ⟨b2, hb2, hret⟩ := except_bind_ok _ _ _ hok2
        injection hret with h
        subst h
        obtain ⟨_, _, hl2⟩ := assertQueue_cases _ _ _ _ hb2
        refine ⟨?_, ?_, ?_⟩
        · intro hd _
          rw [heq] at hd
          injection hd with hde
          subst hde
          exact ⟨rfl, hl2, rfl, rfl⟩
        · intro hd
          rw [heq] at hd
          exact Option.noConfusion hd
        · intro hd
          rw [heq] at hd
          injection hd with hde
          omega
      next h0 =>
        injection hok2 with h
        subst h
        refine ⟨?_, ?_, ?_⟩
        · intro hd hpos
          rw [heq] at hd
          injection hd with hde
          omega
        · intro hd
          simp [heq] at hd
        · intro _
          rfl
    next heq =>
      injection hok2 with h
      subst h
      refine ⟨?_, ?_, ?_⟩
      · intro hd
        rw [heq] at hd
        exact absurd hd (by simp)
      · intro _
        rfl
      · intro hd
        simp [heq] at hd

/-- The delay-branch options used by the addJob witness. -/
def opts7 : Option IJobOptions := some { delay := some 2000 }

/-- The provider state after the witness addJob call with delay 2000. -/
def c7state : ProviderState :=
  { channel := some 1,
    broker := { queues :=
                  (delayQueueName "e" "q" 2000, delayConfig "e" "q" 2000)
                    :: eqBroker.queues,
                log := eqBroker.log ++
                  [⟨delayQueueName "e" "q" 2000, delayConfig "e" "q" 2000⟩] },
    published := [(delayQueueName "e" "q" 2000, mkMessage "id1" "t" "d" opts7 0)] }

theorem addJob_delay_routing_witness :
    addJob "e" "q" "t" "d" opts7 "id1" 0 { channel := some 1 } =
      .ok (c7state, "id1") ∧
    optDelay opts7 = some 2000 ∧ 0 < 2000 ∧
    (c7state.published =
      [(delayQueueName "e" "q" 2000, mkMessage "id1" "t" "d" opts7 0)] ∧
     c7state.broker.queues.lookup (delayQueueName "e" "q" 2000) =
       some (delayConfig "e" "q" 2000)) := by
  have h := addJob_delay_routing "e" "q" "t" "d" opts7 "id1" 0
    { channel := some 1 } (c7state, "id1") 2000 rfl
  have h2 := h.1 rfl (by omega)
  exact ⟨rfl, rfl, by omega, h2.1, h2.2.1⟩

/-- Claim C8: while the stored channel is null, `addJob`,
`registerProcessor` and `ensureQueue` all fail with the broker-unavailable
error and return no new state (the check precedes every effect: nothing is
published, asserted or stored); after a reconnect completes (the fields hold
fresh open handles, the broker topology unchanged), the same `addJob` call
succeeds. -/
theorem unavailable_channel_rejects_calls (qp qn ty da : String)
    (options : Option IJobOptions) (jid : String) (now : Nat) (pid ci chi : Nat)
    (s : ProviderState)
    (hch : s.channel = none) :
    addJob qp qn ty da options jid now s = .error .brokerUnavailable ∧
    registerProcessor qp qn pid s = .error .brokerUnavailable ∧
    ensureQueueP qp qn s = .error .brokerUnavailable ∧
    (∀ b1, ensureQueueB qp qn s.broker = .ok b1 → optDelay options = none →
      addJob qp qn ty da options jid now (connectOk ci chi s) =
        .ok ({ connectOk ci chi s with
               broker := b1,
               published := (getQueueName qp qn, mkMessage jid ty da options now)
                 :: s.published }, jid)) := by
  refine ⟨by simp [addJob, hch], by simp [registerProcessor, hch],
          by simp [ensureQueueP, hch], ?_⟩
  intro b1 hb hd
  rw [addJob, if_neg (by simp [connectOk])]
  rw [show (connectOk ci chi s).broker = s.broker from rfl, hb]
  simp only [Bind.bind, Except.bind, hd]
  rfl

theorem unavailable_channel_rejects_calls_witness :
    ProviderState.channel {} = none ∧
    (addJob "e" "q" "t" "d" none "id1" 0 {} = .error .brokerUnavailable ∧
     registerProcessor "e" "q" 7 {} = .error .brokerUnavailable ∧
     ensureQueueP "e" "q" {} = .error .brokerUnavailable ∧
     addJob "e" "q" "t" "d" none "id1" 0 (connectOk 5 6 {}) =
       .ok ({ connectOk 5 6 {} with
              broker := eqBroker,
              published := (getQueueName "e" "q", mkMessage "id1" "t" "d" none 0)
                :: ProviderState.published {} }, "id1")) := by
  have h := unavailable_channel_rejects_calls "e" "q" "t" "d" none "id1" 0 7 5 6
    {} rfl
  exact ⟨rfl, h.1, h.2.1, h.2.2.1, h.2.2.2 eqBroker rfl rfl⟩

theorem runConn_no_pending (u : Bool) (env : Nat → Bool) (n : Nat) :
    ∀ s : ConnLifecycle, s.pendingReconnectMs = none → runConn u env n s = s := by
  induction n with
  | zero => intro s _; rfl
  | succ k ih =>
    intro s hp
    have h1 : fireTimer u (env s.attempts) s = s := by
      simp [fireTimer, hp]
    show runConn u env k (fireTimer u (env s.attempts) s) = s
    rw [h1]
    exact ih s hp

/-- Claim C9 counterexample: starting from a connected provider, after a
broker-initiated close whose scheduled reconnect attempt FAILS, only one
connect attempt is ever made: after 10 timer opportunities with every
connect failing, the attempt counter is 1, no reconnect is pending, the
provider is still disconnected, and 40 more opportunities change nothing —
refuting that reconnect attempts repeat indefinitely until connect
succeeds. -/
theorem reconnect_gives_up_cx :
    (runConn true (fun _ => false) 10 (onClose { connected := true })).attempts = 1 ∧
    (runConn true (fun _ => false) 10
      (onClose { connected := true })).pendingReconnectMs = none ∧
    (runConn true (fun _ => false) 10 (onClose { connected := true })).connected
      = false ∧
    runConn true (fun _ => false) 50 (onClose { connected := true }) =
      runConn true (fun _ => false) 10 (onClose { connected := true }) := by
  decide

/-- Claim C9 amended: a broker-initiated close schedules exactly ONE
reconnect attempt, after a fixed 5-second delay; if that connect attempt
fails, no further attempt is scheduled and the provider remains disconnected
with one more attempt made, however many timer opportunities pass —
reconnection repeats only as long as each attempt succeeds and the resulting
connection later closes again. -/
theorem close_schedules_single_reconnect (s : ConnLifecycle) (env : Nat → Bool)
    (n : Nat) (hfail : env s.attempts = false) :
    (onClose s).pendingReconnectMs = some 5000 ∧
    runConn true env (n + 1) (onClose s) =
      { connected := false, pendingReconnectMs := none,
        attempts := s.attempts + 1 } := by
  refine ⟨rfl, ?_⟩
  have h1 : fireTimer true (env (onClose s).attempts) (onClose s) =
      { connected := false, pendingReconnectMs := none,
        attempts := s.attempts + 1 } := by
    simp [onClose, fireTimer, connectAttempt, hfail]
  show runConn true env n (fireTimer true (env (onClose s).attempts) (onClose s)) = _
  rw [h1]
  exact runConn_no_pending true env n _ rfl

theorem close_schedules_single_reconnect_witness :
    (fun _ => false : Nat → Bool) (ConnLifecycle.attempts { connected := true })
      = false ∧
    ((onClose { connected := true }).pendingReconnectMs = some 5000 ∧
     runConn true (fun _ => false) 4 (onClose { connected := true }) =
       { connected := false, pendingReconnectMs := none, attempts := 1 }) :=
  ⟨rfl, close_schedules_single_reconnect { connected := true } (fun _ => false) 3 rfl⟩

theorem disconnect_fields (s : ProviderState) :
    (disconnect s).connection = s.connection ∧
    (disconnect s).channel = s.channel := by
  unfold disconnect
  cases hc : s.channel <;> cases hn : s.connection <;> simp [hc, hn]

/-- Claim C10: `disconnect` closes the transport handles but never resets the
stored connection and channel fields to null, so whenever `isConnected()` is
true before `disconnect()`, it is still true afterwards — and so is the
facade's `isHealthy()`, which delegates to it. -/
theorem disconnect_preserves_isConnected (s : ProviderState)
    (h : isConnected s = true) :
    isConnected (disconnect s) = true ∧ isHealthy (disconnect s) = true := by
  obtain ⟨h1, h2⟩ := disconnect_fields s
  have heq : isConnected (disconnect s) = isConnected s := by
    simp [isConnected, h1, h2]
  exact ⟨heq.trans h, heq.trans h⟩

/-- A connected provider state with open handles. -/
def s10 : ProviderState :=
  { connection := some 1, channel := some 2,
    openConnections := [1], openChannels := [2] }

theorem disconnect_preserves_isConnected_witness :
    isConnected s10 = true ∧
    (isConnected (disconnect s10) = true ∧ isHealthy (disconnect s10) = true) :=
  ⟨rfl, disconnect_preserves_isConnected s10 rfl⟩

end Prosto
